import Mathlib

/-!
Verification of the OMDL core (omdl.py): event sanitizer, background-monitor
deduplication, step-sequencer queue draining, validation-rule compiler and
structural validator.  Python values are modelled by a tagged variant `Value`;
fallible Python code returns `Except PyErr`; machinery that the source only
touches through the standard library (json.dumps, hash, re, datetime) is
modelled by explicit executable stand-ins whose exact output no theorem
depends on.
-/

namespace OMDL

/-- Python exceptions raised by the embedded code.  `exc` is a generic
exception carrying str(error) and the class name (used for a foreign object
whose str() raises).  `outOfFuel` is a model artifact marking executions on
which the Python source does not terminate (the fueled recursion ran out);
no terminating run maps to it. -/
inductive PyErr where
  | valueError (msg : String)
  | attributeError
  | typeError
  | keyError
  | exc (msg : String) (cls : String)
  | outOfFuel
deriving DecidableEq, Repr

/-- The class name of an exception, error.__class__.__name__. -/
def excClassName : PyErr → String
  | .valueError _ => "ValueError"
  | .attributeError => "AttributeError"
  | .typeError => "TypeError"
  | .keyError => "KeyError"
  | .exc _ cls => cls
  | .outOfFuel => "NonTermination"

/-- str(error): the message text.  For builtin exceptions the interpreter
message is not modelled (empty stand-in); no theorem depends on it. -/
def excMessage : PyErr → String
  | .valueError m => m
  | .exc m _ => m
  | _ => ""

/-- Tagged variant for Python runtime values flowing through the event
pipeline, as in the dynamic source: JSON-like data plus two kinds of
non-serializable objects.  `selenium` models driver-internal objects (their
type string contains "selenium"); `foreign` models any other non-JSON object,
carrying whether calling str() on it succeeds and the string it yields (or
the exception message when it raises). -/
inductive Value where
  | null
  | bool (b : Bool)
  | int (n : Int)
  | float (repr : String)
  | str (s : String)
  | list (elems : List Value)
  | dict (entries : List (String × Value))
  | selenium (s : String)
  | foreign (strOk : Bool) (s : String)
deriving Inhabited

/-- Whether str(type(v)).find("selenium") > -1 holds, i.e. the value is a
driver-internal object (omdl.py line 1223). -/
def isSeleniumObj : Value → Bool
  | .selenium _ => true
  | _ => false

/-- Python whitespace for str.strip and str.isspace. -/
def pyIsSpace (c : Char) : Bool :=
  c = ' ' ∨ c = '\t' ∨ c = '\n' ∨ c = '\r' ∨ c = '\x0b' ∨ c = '\x0c'

/-- Python s.strip(): drop whitespace from both ends. -/
def pyTrimB (s : String) : String :=
  let l := s.toList.dropWhile pyIsSpace
  String.mk ((l.reverse.dropWhile pyIsSpace).reverse)

/-- Python s.startswith(p). -/
def strStartsWithB (s p : String) : Bool :=
  List.isPrefixOf p.toList s.toList

/-- Python s.endswith(p). -/
def strEndsWithB (s p : String) : Bool :=
  List.isPrefixOf p.toList.reverse s.toList.reverse

/-- Python s.lower() for the ASCII tokens the rule language uses. -/
def pyLowerB (s : String) : String :=
  String.mk (s.toList.map Char.toLower)

/-- The characters of hay up to (excluding) the first occurrence of needle:
Python hay.split(needle)[0]. -/
def cutAtSubChars (needle : List Char) : List Char → List Char
  | [] => []
  | c :: rest =>
    if List.isPrefixOf needle (c :: rest) then []
    else c :: cutAtSubChars needle rest

/-- Whether needle occurs as a substring of hay. -/
def containsSubChars (needle : List Char) : List Char → Bool
  | [] => List.isPrefixOf needle []
  | c :: rest => List.isPrefixOf needle (c :: rest) || containsSubChars needle rest

/-- clean_error_message (omdl.py lines 554-561): first line of str(error),
cut at "Stacktrace", stripped; a generic message naming the exception class
when empty. -/
def clean_error_message (e : PyErr) : String :=
  let firstLine := (excMessage e).toList.takeWhile (fun c => c ≠ '\n')
  let cleaned := pyTrimB (String.mk (cutAtSubChars "Stacktrace".toList firstLine))
  if cleaned = "" then "Browser error occurred: " ++ excClassName e else cleaned

mutual
/-- sanitize_event_data (omdl.py lines 1216-1234).  The whole body sits in a
try/except returning a placeholder string on any exception, and every
recursive call goes through the protected function again, so the only
exception the try-block can see is a raising str() on a foreign object in
the final else branch, caught at that same level; the placeholder is
therefore inlined at the one raising site.  `sanitizeBody` below factors the
try-block out and `sanitize_eq_handle_body` proves the two presentations
equal. -/
def sanitize_event_data : Value → Value
  | .dict kvs => .dict (sanitizeDict kvs)
  | .list xs => .list (sanitizeList xs)
  | .str s => .str s
  | .int n => .int n
  | .float r => .float r
  | .bool b => .bool b
  | .null => .null
  | .selenium s => .str s
  | .foreign ok s =>
    if ok then .str s
    else .str ("Error sanitizing data: " ++ clean_error_message (.exc s "ForeignStrError"))

/-- The dict comprehension of sanitize_event_data (lines 1220-1226). -/
def sanitizeDict : List (String × Value) → List (String × Value)
  | [] => []
  | (k, v) :: kvs =>
    if ¬ isSeleniumObj v ∧ k ≠ "error" ∧ k ≠ "trace" then
      (k, sanitize_event_data v) :: sanitizeDict kvs
    else
      sanitizeDict kvs

/-- The list comprehension of sanitize_event_data (line 1228). -/
def sanitizeList : List Value → List Value
  | [] => []
  | x :: xs => sanitize_event_data x :: sanitizeList xs
end

/-- The try-block of sanitize_event_data in isolation: dict entries drop
selenium values and the keys "error" and "trace"; lists recurse (through the
protected function, as in the source); scalars pass through; any other
object is stringified, which raises when its str() raises. -/
def sanitizeBody : Value → Except PyErr Value
  | .dict kvs => .ok (.dict (sanitizeDict kvs))
  | .list xs => .ok (.list (sanitizeList xs))
  | .str s => .ok (.str s)
  | .int n => .ok (.int n)
  | .float r => .ok (.float r)
  | .bool b => .ok (.bool b)
  | .null => .ok .null
  | .selenium s => .ok (.str s)
  | .foreign ok s => if ok then .ok (.str s) else .error (.exc s "ForeignStrError")

mutual
/-- Python == on runtime values.  Cross-type numeric equality (1 == 1.0) is
not modelled: every comparison the embedded code performs has a string on one
side, where Python agrees with this structural equality.  Python dict
equality is order-insensitive and selenium objects compare by identity; both
differences are likewise unobservable through the embedded comparisons. -/
def valueEqB : Value → Value → Bool
  | .null, .null => true
  | .bool a, .bool b => a == b
  | .int a, .int b => a == b
  | .float a, .float b => a == b
  | .str a, .str b => a == b
  | .list a, .list b => valueListEqB a b
  | .dict a, .dict b => valueDictEqB a b
  | .selenium a, .selenium b => a == b
  | .foreign a b, .foreign c d => a == c && b == d
  | _, _ => false

def valueListEqB : List Value → List Value → Bool
  | [], [] => true
  | x :: xs, y :: ys => valueEqB x y && valueListEqB xs ys
  | _, _ => false

def valueDictEqB : List (String × Value) → List (String × Value) → Bool
  | [], [] => true
  | (k, v) :: xs, (l, w) :: ys => k == l && valueEqB v w && valueDictEqB xs ys
  | _, _ => false
end

mutual
/-- Python str(v) as used in f-strings; raises when a foreign object has a
raising str().  Exact rendering of containers is a stand-in no theorem
depends on. -/
def pyStrE : Value → Except PyErr String
  | .null => .ok "None"
  | .bool b => .ok (if b then "True" else "False")
  | .int n => .ok (toString n)
  | .float r => .ok r
  | .str s => .ok s
  | .selenium s => .ok s
  | .foreign ok s => if ok then .ok s else .error (.exc s "ForeignStrError")
  | .list xs => do
    let r ← pyStrListE xs
    .ok ("[" ++ r ++ "]")
  | .dict kvs => do
    let r ← pyStrDictE kvs
    .ok ("\x7b" ++ r ++ "\x7d")

def pyStrListE : List Value → Except PyErr String
  | [] => .ok ""
  | [x] => pyStrE x
  | x :: xs => do
    let a ← pyStrE x
    let b ← pyStrListE xs
    .ok (a ++ ", " ++ b)

def pyStrDictE : List (String × Value) → Except PyErr String
  | [] => .ok ""
  | [(k, v)] => do
    let a ← pyStrE v
    .ok (k ++ ": " ++ a)
  | (k, v) :: kvs => do
    let a ← pyStrE v
    let b ← pyStrDictE kvs
    .ok (k ++ ": " ++ a ++ ", " ++ b)
end

/-- Insertion into an association list by key, keeping a replaced key at its
original position: the semantics of Python dict assignment. -/
def pyDictInsert {α : Type} (kvs : List (String × α)) (key : String) (v : α) :
    List (String × α) :=
  match kvs with
  | [] => [(key, v)]
  | (k, w) :: rest =>
    if k = key then (k, v) :: rest else (k, w) :: pyDictInsert rest key v

/-- Python dict lookup (first matching key; parser-built dicts are dup-free). -/
def pyDictFind {α : Type} (kvs : List (String × α)) (key : String) : Option α :=
  (kvs.find? (fun kv => kv.1 == key)).map (fun kv => kv.2)

/-- Lexicographic string comparison on character codes: Python string ≤
(ASCII range), used for sort_keys. -/
def charListLeB : List Char → List Char → Bool
  | [], _ => true
  | _ :: _, [] => false
  | a :: as, b :: bs =>
    if a.toNat < b.toNat then true
    else if b.toNat < a.toNat then false
    else charListLeB as bs

def strLeB (a b : String) : Bool := charListLeB a.toList b.toList

/-- Sort an association list by key: the sort_keys=True behaviour of
json.dumps.  Simple insertion sort; only that it is a function of the
(order-normalised) dict content matters. -/
def sortInsert (kv : String × Value) : List (String × Value) → List (String × Value)
  | [] => [kv]
  | hd :: tl => if strLeB kv.1 hd.1 then kv :: hd :: tl else hd :: sortInsert kv tl

def sortByKey : List (String × Value) → List (String × Value)
  | [] => []
  | kv :: rest => sortInsert kv (sortByKey rest)

mutual
/-- Key-sort every dict in a value tree: composed with the plain serializer
below, this models json.dumps(..., sort_keys=True). -/
def deepSortV : Value → Value
  | .dict kvs => .dict (sortByKey (deepSortKVs kvs))
  | .list xs => .list (deepSortList xs)
  | .str s => .str s
  | .int n => .int n
  | .float r => .float r
  | .bool b => .bool b
  | .null => .null
  | .selenium s => .selenium s
  | .foreign ok s => .foreign ok s

def deepSortKVs : List (String × Value) → List (String × Value)
  | [] => []
  | (k, v) :: kvs => (k, deepSortV v) :: deepSortKVs kvs

def deepSortList : List Value → List Value
  | [] => []
  | x :: xs => deepSortV x :: deepSortList xs
end

mutual
/-- json.dumps modelled as an executable serializer; raises TypeError on
non-serializable objects exactly as Python does.  Exact text (quoting,
indentation) is a stand-in no theorem depends on; only that it is a function
of the value matters. -/
def jsonDumpsE : Value → Except PyErr String
  | .null => .ok "null"
  | .bool b => .ok (if b then "true" else "false")
  | .int n => .ok (toString n)
  | .float r => .ok r
  | .str s => .ok ("\"" ++ s ++ "\"")
  | .list xs => do
    let r ← jsonDumpsListE xs
    .ok ("[" ++ r ++ "]")
  | .dict kvs => do
    let r ← jsonDumpsDictE kvs
    .ok ("\x7b" ++ r ++ "\x7d")
  | .selenium _ => .error .typeError
  | .foreign _ _ => .error .typeError

def jsonDumpsListE : List Value → Except PyErr String
  | [] => .ok ""
  | [x] => jsonDumpsE x
  | x :: xs => do
    let a ← jsonDumpsE x
    let b ← jsonDumpsListE xs
    .ok (a ++ ", " ++ b)

def jsonDumpsDictE : List (String × Value) → Except PyErr String
  | [] => .ok ""
  | [(k, v)] => do
    let a ← jsonDumpsE v
    .ok ("\"" ++ k ++ "\": " ++ a)
  | (k, v) :: kvs => do
    let a ← jsonDumpsE v
    let b ← jsonDumpsDictE kvs
    .ok ("\"" ++ k ++ "\": " ++ a ++ ", " ++ b)
end

/-- json.dumps(v, sort_keys=True): serialize the key-sorted tree. -/
def jsonDumpsCanonE (v : Value) : Except PyErr String :=
  jsonDumpsE (deepSortV v)

/-- Python s.lstrip("!"): remove all leading exclamation marks. -/
def pyLstripBang (s : String) : String :=
  String.mk (s.toList.dropWhile (fun c => c = '!'))

/-- Python s.strip("<>"): remove leading and trailing angle brackets. -/
def pyStripAngles (s : String) : String :=
  let angle := fun (c : Char) => c = '<' ∨ c = '>'
  let l := s.toList.dropWhile (fun c => decide (angle c))
  String.mk ((l.reverse.dropWhile (fun c => decide (angle c))).reverse)

/-- Python needle in hay for strings: substring containment. -/
def pySubstrB (needle hay : String) : Bool :=
  containsSubChars needle.toList hay.toList

/-- Python s[a:b] for 0 ≤ a ≤ b. -/
def stringSlice (s : String) (a b : Nat) : String :=
  String.mk ((s.toList.drop a).take (b - a))

/-- Python s.find(c): index of the first occurrence or -1. -/
def pyFindCharIdx (c : Char) (s : String) : Int :=
  match s.toList.findIdx? (fun d => d == c) with
  | some i => (i : Int)
  | none => -1

/-- Python s.rfind(c): index of the last occurrence or -1. -/
def pyRfindCharIdx (c : Char) (s : String) : Int :=
  match s.toList.reverse.findIdx? (fun d => d == c) with
  | some i => ((s.toList.length - 1 - i : Nat) : Int)
  | none => -1

/-- allowed_validation_types (omdl.py line 46). -/
def allowed_validation_types : List String := ["<int>", "<float>", "<str>"]

/-- Python clean_key in data: dict key membership, list element membership,
string substring; TypeError on scalars (omdl.py line 1577 when reached with
non-container data through the array branch). -/
def pyContains (data : Value) (k : String) : Except PyErr Bool :=
  match data with
  | .dict kvs => .ok (kvs.any (fun kv => kv.1 == k))
  | .list xs => .ok (xs.any (fun x => valueEqB x (.str k)))
  | .str s => .ok (pySubstrB k s)
  | _ => .error .typeError

/-- Python data[clean_key]: dict lookup; TypeError on lists and strings
subscripted with a string; KeyError on an absent key. -/
def pyIndex (data : Value) (k : String) : Except PyErr Value :=
  match data with
  | .dict kvs =>
    match pyDictFind kvs k with
    | some v => .ok v
    | none => .error .keyError
  | _ => .error .typeError

/-- isinstance(v, int): Python booleans are integers. -/
def pyIsinstInt : Value → Bool
  | .int _ => true
  | .bool _ => true
  | _ => false

def pyIsinstBool : Value → Bool
  | .bool _ => true
  | _ => false

def pyIsinstFloat : Value → Bool
  | .float _ => true
  | _ => false

def pyIsinstStr : Value → Bool
  | .str _ => true
  | _ => false

/-- The keys of the type_checks mapping in validate_event (lines 1565-1569). -/
def typeCheckKeys : List String := ["int", "float", "str"]

/-- The type_checks lambdas of validate_event (omdl.py lines 1565-1569):
the integer check excludes booleans; the float check accepts any value of
integer or float type (hence also booleans); the string check is exact. -/
def typeCheck : String → Value → Bool
  | "int", v => pyIsinstInt v && !pyIsinstBool v
  | "float", v => pyIsinstInt v || pyIsinstFloat v
  | "str", v => pyIsinstStr v
  | _, _ => false

/-- Stand-in for re.fullmatch of the compiled pattern (the compiled-pattern
cache of get_compiled_pattern, lines 1547-1557, is semantically transparent:
compilation is a pure function of the pattern text).  No theorem depends on
the regex semantics, so matching is modelled as literal equality. -/
def regexFullmatchB (pattern input : String) : Bool := pattern == input

/-- Compiled rule-tree values as produced by parse_validation_code_block:
a string (bare word, quoted string, /regex/ or <type> literal kept verbatim),
a nested object, an array, or Python None (returned by consume at token
exhaustion). -/
inductive RVal where
  | s (x : String)
  | obj (entries : List (String × RVal))
  | arr (elems : List RVal)
  | none
deriving Inhabited

/-- The element loop of the array branch of check_structure (omdl.py lines
1616-1617), with the per-element check abstracted as g (check_structure
against the array rule's single element schema): every element is checked
with the path extended by key[i] from the running index. -/
def checkListRuleHO
    (g : Value → String → List String → Except PyErr (List String)) :
    List Value → String → Nat → List String → Except PyErr (List String)
  | [], _, _, errs => .ok errs
  | x :: rest, base, i, errs =>
    match g x (base ++ "[" ++ toString i ++ "].") errs with
    | .error e => .error e
    | .ok errs2 => checkListRuleHO g rest base (i + 1) errs2

mutual
/-- One iteration of the key loop of check_structure (omdl.py lines
1572-1617) for a single rule entry key → expected.  The Nat argument is
recursion fuel, a model artifact: the Python recursion always descends into
the rule tree, so any fuel exceeding three times the rule size is never
exhausted (validate_event below supplies such a bound) and outOfFuel is
unreachable from the embedded entry points. -/
def checkOne : Nat → Value → String → RVal → String → List String →
    Except PyErr (List String)
  | 0, _, _, _, _, _ => .error .outOfFuel
  | fuel + 1, data, key, expected, path, errs =>
    let required := strStartsWithB key "!"
    let cleanKey := pyLstripBang key
    match pyContains data cleanKey with
    | .error e => .error e
    | .ok false =>
      if required then .ok (errs ++ ["Missing required field: " ++ path ++ cleanKey])
      else .ok errs
    | .ok true =>
      match pyIndex data cleanKey with
      | .error e => .error e
      | .ok value =>
        match expected with
        | .s exp =>
          if pyLowerB exp ∈ allowed_validation_types then
            let expectedType := pyLowerB (pyStripAngles exp)
            if expectedType ∈ typeCheckKeys ∧ typeCheck expectedType value = false then
              .ok (errs ++ [path ++ cleanKey ++ " should be a " ++ expectedType])
            else .ok errs
          else if strStartsWithB exp "/" then
            let firstIdx := pyFindCharIdx '/' exp
            let lastIdx := pyRfindCharIdx '/' exp
            if firstIdx = -1 ∨ lastIdx ≤ firstIdx then
              .ok (errs ++ [path ++ cleanKey ++ " has an invalid regex pattern " ++ exp])
            else
              let pattern := stringSlice exp (firstIdx.toNat + 1) lastIdx.toNat
              match pyStrE value with
              | .error e => .error e
              | .ok vs =>
                if regexFullmatchB pattern vs then .ok errs
                else .ok (errs ++ [path ++ cleanKey ++ " does not match the pattern /" ++ pattern ++ "/"])
          else
            if valueEqB value (Value.str exp) then .ok errs
            else
              match pyStrE value with
              | .error e => .error e
              | .ok vs =>
                .ok (errs ++ [path ++ cleanKey ++ " = " ++ vs ++ " should be \x27" ++ exp ++ "\x27"])
        | .obj sub =>
          match value with
          | .dict _ => checkEntries fuel value sub (path ++ cleanKey ++ ".") errs
          | _ => .ok (errs ++ [path ++ cleanKey ++ " should be an object"])
        | .arr [] => .ok errs
        | .arr (r0 :: _) =>
          match value with
          | .list xs =>
            checkListRuleHO (fun x p es => checkStructureV fuel x r0 p es) xs
              (path ++ cleanKey) 0 errs
          | _ => .ok (errs ++ [path ++ cleanKey ++ " should be a list"])
        | .none => .ok errs

/-- The key loop of check_structure over the entries of a rule object. -/
def checkEntries : Nat → Value → List (String × RVal) → String → List String →
    Except PyErr (List String)
  | 0, _, _, _, _ => .error .outOfFuel
  | _ + 1, _, [], _, errs => .ok errs
  | fuel + 1, data, (key, expected) :: rest, path, errs =>
    match checkOne fuel data key expected path errs with
    | .error e => .error e
    | .ok errs2 => checkEntries fuel data rest path errs2

/-- check_structure called with an arbitrary rule value: rule.items() raises
AttributeError unless the rule is an object. -/
def checkStructureV : Nat → Value → RVal → String → List String →
    Except PyErr (List String)
  | 0, _, _, _, _ => .error .outOfFuel
  | fuel + 1, data, .obj entries, path, errs => checkEntries fuel data entries path errs
  | _ + 1, _, _, _, _ => .error .attributeError
end

mutual
/-- Size of a rule tree, used only to bound the fueled recursion. -/
def rvalSize : RVal → Nat
  | .s _ => 1
  | .obj entries => 1 + rvalEntriesSize entries
  | .arr elems => 1 + rvalListSize elems
  | .none => 1

def rvalEntriesSize : List (String × RVal) → Nat
  | [] => 1
  | (_, v) :: rest => 1 + rvalSize v + rvalEntriesSize rest

def rvalListSize : List RVal → Nat
  | [] => 1
  | v :: rest => 1 + rvalSize v + rvalListSize rest
end

/-- Fuel amply covering the rule-tree descent of check_structure: every
fueled call either finishes or descends into the rule structure, so three
units per rule node suffice whatever the payload (list elements restart the
descent at the element schema without consuming extra depth). -/
def validatorFuel (rules : List (String × RVal)) : Nat := 3 * rvalEntriesSize rules + 8

/-- validate_event (omdl.py lines 1559-1621). -/
def validate_event (event : Value) (rules : List (String × RVal)) :
    Except PyErr (Bool × List String) :=
  match checkEntries (validatorFuel rules) event rules "" [] with
  | .error e => .error e
  | .ok errors => .ok (errors.isEmpty, errors)

/-- Event Record: the queue payload built by the monitor (omdl.py lines
1310-1317).  The event name is the raw value of the "event" field; the data
is the sanitized payload; the timestamp is capture time (datetime modelled
as a Nat; only its ordering and rendering matter). -/
structure EventRecord where
  eventName : Value
  eventData : Value
  timestamp : Nat
  url : String
  valid : String
  errorDetails : Option (List String)
deriving Inhabited

/-- A log row appended by process_queued_events (omdl.py lines 1349-1357):
step name, event name (kept as the Python object), formatted timestamp, URL,
serialized payload, validity marker, serialized error list. -/
structure LogRow where
  step : String
  eventName : Value
  timestamp : String
  url : String
  eventData : String
  valid : String
  errorDetails : String
deriving Inhabited

/-- Stand-in for timestamp.strftime of a capture time; only that it is a
function of the timestamp matters. -/
def strftimeB (t : Nat) : String := toString t

/-- The row built for one queued record (omdl.py lines 1349-1357).  The
json.dumps call raises on non-serializable data, in which case the
enclosing except swallows the record. -/
def rowOf (stepName : String) (e : EventRecord) : Except PyErr LogRow := do
  let d ← jsonDumpsE e.eventData
  let errsStr ←
    match e.errorDetails with
    | Option.none => pure "-"
    | some l =>
      if l.isEmpty then pure "-"
      else do
        let es ← jsonDumpsE (.list (l.map Value.str))
        pure es
  pure { step := stepName, eventName := e.eventName, timestamp := strftimeB e.timestamp,
         url := e.url, eventData := d, valid := e.valid, errorDetails := errsStr }

/-- process_queued_events (omdl.py lines 1338-1359).  Pops records from the
queue front; with a cutoff, the first record with a later timestamp is put
back at the BACK of the queue (event_queue.put appends) and draining stops;
otherwise the record becomes a log row, a per-record exception (from
json.dumps) being caught and the record dropped.  Returns the remaining
queue and the extended log. -/
def process_queued_events (queue : List EventRecord) (logData : List LogRow)
    (stepName : String) (untilTime : Option Nat) : List EventRecord × List LogRow :=
  match queue with
  | [] => ([], logData)
  | e :: rest =>
    let late := match untilTime with
      | some t => decide (t < e.timestamp)
      | Option.none => false
    if late then (rest ++ [e], logData)
    else
      match rowOf stepName e with
      | .ok row => process_queued_events rest (logData ++ [row]) stepName untilTime
      | .error _ => process_queued_events rest logData stepName untilTime

/-- The drain call sites of perform_sequence (omdl.py lines 1521-1528): the
final step drains with no cutoff, any other step drains with the cutoff
taken when its delay completed. -/
def drainStep (isFinal : Bool) (queue : List EventRecord) (logData : List LogRow)
    (stepName : String) (stepEndTime : Nat) : List EventRecord × List LogRow :=
  if isFinal then process_queued_events queue logData stepName Option.none
  else process_queued_events queue logData stepName (some stepEndTime)

/-- Stand-in for Python hash() on the canonical serialization (line 1285).
Injective stand-in: within one interpreter run, equal inputs give equal
hashes, which is the only property any theorem uses; collisions between
distinct serializations are not modelled. -/
def pyHashStr (s : String) : String := s

/-- One polling cycle of the monitor as seen at the dataLayer boundary: the
attributed URL, the capture time of this cycle, and the read dataLayer
items.  Browser access, cooldown and URL bookkeeping (lines 1258-1277) stay
outside the model boundary. -/
structure PollCycle where
  url : String
  time : Nat
  datalayer : List Value
deriving Inhabited

/-- The monitor state owned by one monitoring thread: the per-sequence dedup
set processed_events and the work queue (lines 1238, 1310-1319). -/
structure MonState where
  processed : List String
  queue : List EventRecord
deriving Inhabited

/-- The validation step of the monitor loop (omdl.py lines 1295-1307):
no rules configured or no rule for this event name gives the "-" marker;
otherwise validate_event runs (its exceptions propagate to the per-event
handler).  validation_rules.get raises TypeError on an unhashable name. -/
def computeValidation (rules : List (String × List (String × RVal)))
    (nameV : Value) (sanitized : Value) : Except PyErr (String × Option (List String)) :=
  if rules.isEmpty then .ok ("-", Option.none)
  else
    match nameV with
    | .dict _ => .error .typeError
    | .list _ => .error .typeError
    | _ =>
      let ruleFor := ((rules.find? (fun kv => valueEqB nameV (.str kv.1))).map
        (fun kv => kv.2)).getD []
      if ruleFor.isEmpty then .ok ("-", Option.none)
      else
        match validate_event sanitized ruleFor with
        | .error e => .error e
        | .ok (isValid, errors) =>
          .ok (if isValid then "✔️" else "❌",
               if isValid then Option.none else some errors)

/-- Processing of one dataLayer item (omdl.py lines 1279-1329): items that
are not dicts carrying an "event" key are skipped; the item is sanitized and
its dedup identity f-string name_hash(dumps(sanitized, sort_keys)) built;
already-seen or filtered-out events are skipped; validation runs and the
record is enqueued and the identity recorded.  Any exception inside the
per-event try (a raising str() on the name, a non-serializable payload in
dumps, a validator TypeError) is caught by the inner except and the event is
skipped without being enqueued or marked processed. -/
def processEvent (rules : List (String × List (String × RVal)))
    (monitored : List String) (cycleUrl : String) (time : Nat)
    (st : MonState) (event : Value) : MonState :=
  match event with
  | .dict kvs =>
    match pyDictFind kvs "event" with
    | Option.none => st
    | some nameV =>
      let sanitized := sanitize_event_data event
      match pyStrE nameV with
      | .error _ => st
      | .ok nameS =>
        match jsonDumpsCanonE sanitized with
        | .error _ => st
        | .ok dumpStr =>
          let eid := nameS ++ "_" ++ pyHashStr dumpStr
          if eid ∈ st.processed ∨
              (¬ monitored.isEmpty ∧ ¬ monitored.any (fun m => valueEqB nameV (.str m))) then
            st
          else
            match computeValidation rules nameV sanitized with
            | .error _ => st
            | .ok (flag, errDetails) =>
              ⟨st.processed ++ [eid],
               st.queue ++ [⟨nameV, sanitized, time, cycleUrl, flag, errDetails⟩]⟩
  | _ => st

/-- One polling cycle over the read dataLayer list (the event loop at line
1279). -/
def processCycle (rules : List (String × List (String × RVal)))
    (monitored : List String) (st : MonState) (c : PollCycle) : MonState :=
  c.datalayer.foldl (processEvent rules monitored c.url c.time) st

/-- A full monitoring run: start_monitoring_thread begins with an empty
dedup set and queue (line 1238) and folds the polling loop over the cycles
until the stop signal. -/
def runMonitor (rules : List (String × List (String × RVal)))
    (monitored : List String) (cycles : List PollCycle) : MonState :=
  cycles.foldl (processCycle rules monitored) { processed := [], queue := [] }

/-- The dedup identity of a queue record, recomputed from its fields exactly
as line 1285 builds it from the name and the sanitized payload (total
fallback for records the monitor can never enqueue). -/
def recordId (r : EventRecord) : String :=
  (match pyStrE r.eventName with | .ok s => s | .error _ => "") ++ "_" ++
    pyHashStr (match jsonDumpsCanonE r.eventData with | .ok d => d | .error _ => "")

/-- Split before and after the first occurrence of a character, Python
s.find(c, i+1) followed by slicing; nothing when absent. -/
def splitAtFirst (c : Char) : List Char → Option (List Char × List Char)
  | [] => Option.none
  | d :: rest =>
    if d = c then some ([], rest)
    else (splitAtFirst c rest).map (fun p => (d :: p.1, p.2))

/-- Stand-in for a successful re.compile of the pattern text in the
tokenizer (omdl.py line 627).  No claim involves an uncompilable regex, so
compilation is modelled as always succeeding. -/
def regexCompilesOk (_pattern : String) : Bool := true

/-- The quoted-string scan of the tokenizer (omdl.py lines 648-683):
backslash escapes the quote character and the backslash, any other escaped
character keeps its backslash; an unterminated string raises. -/
def scanQuoted (q : Char) : List Char → List Char → Except PyErr (String × List Char)
  | [], _ => .error (.valueError "Unterminated string")
  | c :: rest, buff =>
    if c = '\\' then
      match rest with
      | [] => .error (.valueError "Unterminated string")
      | d :: rest2 =>
        let add := if d = q ∨ d = '\\' then [d] else ['\\', d]
        scanQuoted q rest2 (buff ++ add)
    else if c = q then .ok (String.mk buff, rest)
    else scanQuoted q rest (buff ++ [c])

/-- The character set ending an unquoted bare word (omdl.py line 686). -/
def isSpecialChar (c : Char) : Bool :=
  c = '\x7b' ∨ c = '\x7d' ∨ c = '[' ∨ c = ']' ∨ c = ':' ∨ c = ',' ∨
    c = '"' ∨ c = '\x27' ∨ c = '/' ∨ c = ' ' ∨ c = '\t' ∨ c = '\n' ∨ c = '\r'

/-- The tokenize scan of parse_validation_code_block (omdl.py lines
599-693).  Tokens are plain strings: single punctuation characters, /regex/
and <type> literals kept verbatim, quoted strings with their quotes
stripped, and bare words.  Every iteration consumes at least one character,
so fuel = length + 1 always suffices. -/
def tokenizeAux : Nat → List Char → List String → Except PyErr (List String)
  | _, [], acc => .ok acc
  | 0, _ :: _, _ => .error .outOfFuel
  | fuel + 1, c :: rest, acc =>
    if pyIsSpace c then tokenizeAux fuel rest acc
    else if c = '\x7b' ∨ c = '\x7d' ∨ c = '[' ∨ c = ']' ∨ c = ':' ∨ c = ',' then
      tokenizeAux fuel rest (acc ++ [String.mk [c]])
    else if c = '/' then
      match splitAtFirst '/' rest with
      | Option.none => .error (.valueError "Unclosed \x27/\x27 in regex pattern")
      | some (body, rest2) =>
        let tok := "/" ++ String.mk body ++ "/"
        if regexCompilesOk (String.mk body) then tokenizeAux fuel rest2 (acc ++ [tok])
        else .error (.valueError ("Invalid regex pattern: " ++ tok))
    else if c = '<' then
      match splitAtFirst '>' rest with
      | Option.none => .error (.valueError "Unclosed \x27< >\x27 for type")
      | some (body, rest2) =>
        let tok := "<" ++ String.mk body ++ ">"
        if pyLowerB tok ∈ allowed_validation_types then tokenizeAux fuel rest2 (acc ++ [tok])
        else .error (.valueError ("Invalid type specifier \x27" ++ tok ++ "\x27"))
    else if c = '"' ∨ c = '\x27' then
      match scanQuoted c rest [] with
      | .error e => .error e
      | .ok (content, rest2) => tokenizeAux fuel rest2 (acc ++ [content])
    else
      let word := (c :: rest).takeWhile (fun d => ¬ isSpecialChar d)
      let rest2 := (c :: rest).dropWhile (fun d => ¬ isSpecialChar d)
      tokenizeAux fuel rest2 (acc ++ [String.mk word])

def tokenize (s : String) : Except PyErr (List String) :=
  tokenizeAux (s.toList.length + 1) s.toList []

mutual
/-- parse_value (omdl.py lines 712-726): dispatch on the next token; regex
and type literals are returned verbatim; any other token is returned as a
string; at token exhaustion consume() silently returns None. -/
def parseValueP : Nat → List String → Except PyErr (RVal × List String)
  | 0, _ => .error .outOfFuel
  | fuel + 1, ts =>
    match ts.head? with
    | some t =>
      if t = "\x7b" then
        match parseObjectP fuel ts with
        | .error e => .error e
        | .ok (obj, ts2) => .ok (.obj obj, ts2)
      else if t = "[" then
        match parseArrayP fuel ts with
        | .error e => .error e
        | .ok (arr, ts2) => .ok (.arr arr, ts2)
      else if strStartsWithB t "/" then .ok (.s t, ts.tail)
      else if strStartsWithB t "<" then .ok (.s t, ts.tail)
      else .ok (.s t, ts.tail)
    | Option.none => .ok (.none, ts)

/-- Entry of parse_object (line 730): consume('{') raises ValueError on a
different token but silently returns None at exhaustion. -/
def parseObjectP : Nat → List String → Except PyErr (List (String × RVal) × List String)
  | 0, _ => .error .outOfFuel
  | fuel + 1, ts =>
    match ts.head? with
    | Option.none => parseObjectLoopP fuel true [] ts
    | some t =>
      if t = "\x7b" then parseObjectLoopP fuel true [] ts.tail
      else .error (.valueError ("Expected \x27\x7b\x27 but got \x27" ++ t ++ "\x27"))

/-- The entry loop of parse_object (omdl.py lines 731-768).  A comma is
consumed only when not on the first entry (so a trailing comma before the
closing brace is tolerated but a leading comma is parsed as a key); the
colon between key and value is optional; a non-string key (a nested object,
array, or None at exhaustion) raises AttributeError at key.startswith after
the warning log. -/
def parseObjectLoopP : Nat → Bool → List (String × RVal) → List String →
    Except PyErr (List (String × RVal) × List String)
  | 0, _, _, _ => .error .outOfFuel
  | fuel + 1, first, obj, ts =>
    if ts.head? = some "\x7d" then .ok (obj, ts.tail)
    else if ¬ first ∧ ts.head? = some "," then
      let ts2 := ts.tail
      if ts2.head? = some "\x7d" then .ok (obj, ts2.tail)
      else parseObjectEntryP fuel obj ts2
    else parseObjectEntryP fuel obj ts

/-- One key/value entry of the object loop (omdl.py lines 742-767). -/
def parseObjectEntryP : Nat → List (String × RVal) → List String →
    Except PyErr (List (String × RVal) × List String)
  | 0, _, _ => .error .outOfFuel
  | fuel + 1, obj, ts =>
    match parseValueP fuel ts with
    | .error e => .error e
    | .ok (key, ts2) =>
      match key with
      | .s kstr =>
        let required := strStartsWithB kstr "!"
        let k1 := if required then String.mk (kstr.toList.drop 1) else kstr
        let k2 :=
          if (strStartsWithB k1 "\"" ∧ strEndsWithB k1 "\"") ∨
              (strStartsWithB k1 "\x27" ∧ strEndsWithB k1 "\x27") then
            String.mk ((k1.toList.drop 1).dropLast)
          else k1
        let ts3 := if ts2.head? = some ":" then ts2.tail else ts2
        match parseValueP fuel ts3 with
        | .error e => .error e
        | .ok (val, ts4) =>
          let storedKey := if required then "!" ++ k2 else k2
          parseObjectLoopP fuel false (pyDictInsert obj storedKey val) ts4
      | _ => .error .attributeError

/-- Entry of parse_array (line 776). -/
def parseArrayP : Nat → List String → Except PyErr (List RVal × List String)
  | 0, _ => .error .outOfFuel
  | fuel + 1, ts =>
    match ts.head? with
    | Option.none => parseArrayLoopP fuel true [] ts
    | some t =>
      if t = "[" then parseArrayLoopP fuel true [] ts.tail
      else .error (.valueError ("Expected \x27[\x27 but got \x27" ++ t ++ "\x27"))

/-- The element loop of parse_array (omdl.py lines 777-791), with the same
comma handling as objects.  At token exhaustion Python appends None forever
(an infinite loop); the model reports that as outOfFuel. -/
def parseArrayLoopP : Nat → Bool → List RVal → List String →
    Except PyErr (List RVal × List String)
  | 0, _, _, _ => .error .outOfFuel
  | fuel + 1, first, arr, ts =>
    if ts.head? = some "]" then .ok (arr, ts.tail)
    else if ¬ first ∧ ts.head? = some "," then
      let ts2 := ts.tail
      if ts2.head? = some "]" then .ok (arr, ts2.tail)
      else
        match parseValueP fuel ts2 with
        | .error e => .error e
        | .ok (val, ts3) => parseArrayLoopP fuel false (arr ++ [val]) ts3
    else
      match parseValueP fuel ts with
      | .error e => .error e
      | .ok (val, ts3) => parseArrayLoopP fuel false (arr ++ [val]) ts3
end

/-- Fuel amply covering every terminating parse: each loop iteration and
each nesting level consume at least one token, and every call frame burns
one unit. -/
def parserFuel (toks : List String) : Nat := 8 * toks.length + 16

/-- parse_validation_code_block (omdl.py lines 594-797): tokenize, then
parse an object (the source calls parse_object in both arms of its final
conditional); an empty token list yields the empty rule tree; leftover
tokens after the closing brace are ignored. -/
def parse_validation_code_block (code : String) : Except PyErr (List (String × RVal)) :=
  match tokenize code with
  | .error e => .error e
  | .ok [] => .ok []
  | .ok toks =>
    match parseObjectP (parserFuel toks) toks with
    | .error e => .error e
    | .ok (obj, _) => .ok obj

/-- Split a character list at every occurrence of a separator character
(Python str.split keeping empty pieces). -/
def splitOnChar (c : Char) : List Char → List (List Char)
  | [] => [[]]
  | d :: rest =>
    let r := splitOnChar c rest
    if d = c then [] :: r
    else
      match r with
      | [] => [[d]]
      | h :: t => (d :: h) :: t

/-- Python " ".join. -/
def joinWithSpace : List String → String
  | [] => ""
  | [s] => s
  | s :: rest => s ++ " " ++ joinWithSpace rest

/-- The code-string normalization of parse_validation_from_toml (omdl.py
lines 577-584): strip, wrap in braces unless already brace-delimited, then
cut each line at its first # and strip it, joining the lines with single
spaces. -/
def preprocessCode (code : String) : String :=
  let s := pyTrimB code
  let s := if strStartsWithB s "\x7b" ∧ strEndsWithB s "\x7d" then s
           else "\x7b" ++ s ++ "\x7d"
  let lines := splitOnChar '\n' s.toList
  joinWithSpace (lines.map (fun l => pyTrimB (String.mk (l.takeWhile (fun c => c ≠ '#')))))

/-- The entry loop of parse_validation_from_toml (omdl.py lines 573-591):
entries without a code key are skipped; a ValueError from parsing one entry
is printed and that entry skipped; any other exception propagates and
aborts the whole load. -/
def parseValidationAux : List (String × Option String) →
    List (String × List (String × RVal)) →
    Except PyErr (List (String × List (String × RVal)))
  | [], acc => .ok acc
  | (name, codeOpt) :: rest, acc =>
    match codeOpt with
    | Option.none => parseValidationAux rest acc
    | some c =>
      match parse_validation_code_block (preprocessCode c) with
      | .ok r => parseValidationAux rest (pyDictInsert acc name r)
      | .error (.valueError _) => parseValidationAux rest acc
      | .error e => .error e

/-- parse_validation_from_toml (omdl.py lines 563-592) over the validation
section, modelled as the list of (event kind, optional rule source). -/
def parse_validation_from_toml (entries : List (String × Option String)) :
    Except PyErr (List (String × List (String × RVal))) :=
  parseValidationAux entries []

/-- The invariant tying the monitor queue to the dedup set: queued records
have pairwise distinct dedup identities, and every queued identity has been
recorded in processed_events. -/
def MonInv (st : MonState) : Prop :=
  (st.queue.map recordId).Nodup ∧ ∀ r ∈ st.queue, recordId r ∈ st.processed

deriving instance DecidableEq for Except

/-! ## Theorems -/

theorem str_empty_append (s : String) : "" ++ s = s := rfl

/-- Invariance of a predicate under a left fold. -/
theorem foldl_inv {α σ : Type} (P : σ → Prop) (f : σ → α → σ)
    (hf : ∀ s a, P s → P (f s a)) :
    ∀ (l : List α) (s : σ), P s → P (l.foldl f s) := by
  intro l
  induction l with
  | nil => intro s hs; exact hs
  | cons a l ih => intro s hs; exact ih (f s a) (hf s a hs)

/-- C1: Draining the queue for a non-final step with cutoff t=2 against
queued events captured at t=1,2,3 appends exactly the t=1 and t=2 events to
the log in capture order and leaves the t=3 event queued; the t=3 event is
then claimed by the next drain (cutoff 3) and equally by a final drain,
which passes no cutoff and takes everything. -/
theorem C1_time_window_drain :
    process_queued_events
        [⟨.str "e1", .dict [], 1, "u", "-", Option.none⟩,
         ⟨.str "e2", .dict [], 2, "u", "-", Option.none⟩,
         ⟨.str "e3", .dict [], 3, "u", "-", Option.none⟩] [] "step1" (some 2) =
      ([⟨.str "e3", .dict [], 3, "u", "-", Option.none⟩],
       [⟨"step1", .str "e1", "1", "u", "\x7b\x7d", "-", "-"⟩,
        ⟨"step1", .str "e2", "2", "u", "\x7b\x7d", "-", "-"⟩]) ∧
    process_queued_events [⟨.str "e3", .dict [], 3, "u", "-", Option.none⟩]
        [] "step2" (some 3) =
      ([], [⟨"step2", .str "e3", "3", "u", "\x7b\x7d", "-", "-"⟩]) ∧
    drainStep true [⟨.str "e3", .dict [], 3, "u", "-", Option.none⟩] [] "step2" 0 =
      ([], [⟨"step2", .str "e3", "3", "u", "\x7b\x7d", "-", "-"⟩]) :=
  ⟨rfl, rfl, rfl⟩

/-- C2 counterexample: with queued records at t=3 and t=4 (both
not-yet-claimed) and cutoff 2, the drain pops the t=3 record and puts it
back at the BACK of the queue, so the remaining queue is reversed relative
to its pre-drain order — the relative order of not-yet-claimed events is
not preserved. -/
theorem C2_counterexample :
    (process_queued_events
        [⟨.str "a", .dict [], 3, "u", "-", Option.none⟩,
         ⟨.str "b", .dict [], 4, "u", "-", Option.none⟩] [] "s" (some 2)).1 =
      [⟨.str "b", .dict [], 4, "u", "-", Option.none⟩,
       ⟨.str "a", .dict [], 3, "u", "-", Option.none⟩] ∧
    (process_queued_events
        [⟨.str "a", .dict [], 3, "u", "-", Option.none⟩,
         ⟨.str "b", .dict [], 4, "u", "-", Option.none⟩] [] "s" (some 2)).1 ≠
      [⟨.str "a", .dict [], 3, "u", "-", Option.none⟩,
       ⟨.str "b", .dict [], 4, "u", "-", Option.none⟩] :=
  ⟨rfl, fun h =>
    absurd (congrArg (List.map (fun r => EventRecord.timestamp r)) h) (by decide)⟩

/-- C2 amended: when a non-final-step drain reaches the first record whose
timestamp exceeds the cutoff, it logs the records before it in queue order
(records whose rows fail to serialize being dropped), re-enqueues that first
late record at the BACK of the queue and stops; the remaining queue is the
later records in their prior relative order followed by the pushed-back
record.  Relative order of not-yet-claimed events is therefore preserved
exactly when the pushed-back record is the only one remaining (as in the
single-late-event scenario of C1), and not in general. -/
theorem C2_amended_pushback_to_back :
    ∀ (pre : List EventRecord) (e : EventRecord) (rest : List EventRecord)
      (log : List LogRow) (step : String) (t : Nat),
      (∀ r ∈ pre, r.timestamp ≤ t) → t < e.timestamp →
      process_queued_events (pre ++ e :: rest) log step (some t) =
        (rest ++ [e], log ++ pre.filterMap (fun r => (rowOf step r).toOption)) := by
  intro pre
  induction pre with
  | nil =>
    intro e rest log step t _ he
    simp [process_queued_events, he]
  | cons p pre ih =>
    intro e rest log step t hpre he
    have hp : p.timestamp ≤ t := hpre p (by simp)
    have hlate : decide (t < p.timestamp) = false := by
      simp
      omega
    have hstep : process_queued_events ((p :: pre) ++ e :: rest) log step (some t) =
        match rowOf step p with
        | .ok row => process_queued_events (pre ++ e :: rest) (log ++ [row]) step (some t)
        | .error _ => process_queued_events (pre ++ e :: rest) log step (some t) := by
      simp [process_queued_events, hlate]
    rw [hstep]
    cases hrow : rowOf step p with
    | ok row =>
      dsimp only
      rw [ih e rest (log ++ [row]) step t (fun r hr => hpre r (by simp [hr])) he]
      simp [List.filterMap_cons, hrow, Except.toOption]
    | error err =>
      dsimp only
      rw [ih e rest log step t (fun r hr => hpre r (by simp [hr])) he]
      simp [List.filterMap_cons, hrow, Except.toOption]

/-- C2 amended witness: instantiated at the C1-style scenario with one
record before the cutoff and one after. -/
theorem C2_amended_pushback_witness :
    process_queued_events
        [⟨.str "e1", .dict [], 1, "u", "-", Option.none⟩,
         ⟨.str "e3", .dict [], 3, "u", "-", Option.none⟩] [] "s" (some 2) =
      ([⟨.str "e3", .dict [], 3, "u", "-", Option.none⟩],
       [] ++ [⟨.str "e1", .dict [], 1, "u", "-", Option.none⟩].filterMap
         (fun r => (rowOf "s" r).toOption)) :=
  C2_amended_pushback_to_back
    [⟨.str "e1", .dict [], 1, "u", "-", Option.none⟩]
    ⟨.str "e3", .dict [], 3, "u", "-", Option.none⟩ [] [] "s" 2
    (by intro r hr; simp at hr; simp [hr]) (by decide)

/-- C7: sanitize_event_data never raises: for every value, the result is
either the try-block result or, when the try-block raises, the placeholder
error string built from the cleaned exception message, so one malformed
event cannot break monitoring. -/
theorem C7_sanitize_total :
    ∀ v : Value,
      sanitizeBody v = .ok (sanitize_event_data v) ∨
      ∃ e, sanitizeBody v = .error e ∧
        sanitize_event_data v = .str ("Error sanitizing data: " ++ clean_error_message e) := by
  intro v
  cases v with
  | foreign ok s =>
    cases ok with
    | true => exact Or.inl rfl
    | false => exact Or.inr ⟨.exc s "ForeignStrError", rfl, rfl⟩
  | dict kvs => exact Or.inl rfl
  | list xs => exact Or.inl rfl
  | str s => exact Or.inl rfl
  | int n => exact Or.inl rfl
  | float r => exact Or.inl rfl
  | bool b => exact Or.inl rfl
  | null => exact Or.inl rfl
  | selenium s => exact Or.inl rfl

/-- C8: the code is wrong here — a malformed rule whose parse raises a
ValueError is indeed skipped with others still compiled, but a rule text
with a non-string key (for example an empty array in key position) makes
parse_object log its review warning and then crash on key.startswith with
an AttributeError, which parse_validation_from_toml does not catch: the
whole load aborts and the well-formed kinds are lost.  First conjunct: the
load with the malformed kind raises AttributeError.  Second: the same
well-formed kind alone compiles fine. -/
theorem C8_attribute_error_aborts_load :
    parse_validation_from_toml
        [("bad", some "\x7b []: <int> \x7d"), ("good", some "a: <int>")] =
      .error .attributeError ∧
    parse_validation_from_toml [("good", some "a: <int>")] =
      .ok [("good", [("a", .s "<int>")])] ∧
    parse_validation_from_toml
        [("bad2", some "\x7b /unclosed: <int> \x7d"), ("good", some "a: <int>")] =
      .ok [("good", [("a", .s "<int>")])] :=
  ⟨rfl, rfl, rfl⟩

/-- C10: a boolean payload value passes the float type-tag check with no
error (booleans are of integer type in the host language and the float
check accepts integer-or-float), while the same boolean is rejected by the
int type-tag check. -/
theorem C10_bool_passes_float_check :
    typeCheck "float" (.bool true) = true ∧
    typeCheck "int" (.bool true) = false ∧
    validate_event (.dict [("v", .bool true)]) [("v", .s "<float>")] = .ok (true, []) ∧
    validate_event (.dict [("v", .bool true)]) [("v", .s "<int>")] =
      .ok (false, ["v should be a int"]) :=
  ⟨rfl, rfl, rfl, rfl⟩

/-- Helper for C3: one dataLayer item preserves the queue/dedup invariant.
An event is enqueued only when its identity is absent from the dedup set,
and the identity is recorded in the same step, so queued identities stay
pairwise distinct and covered by processed_events. -/
theorem processEvent_inv (rules : List (String × List (String × RVal)))
    (monitored : List String) (url : String) (time : Nat) (st : MonState)
    (ev : Value) (h : MonInv st) :
    MonInv (processEvent rules monitored url time st ev) := by
  cases ev with
  | dict kvs =>
    simp only [processEvent]
    cases hname : pyDictFind kvs "event" with
    | none => exact h
    | some nameV =>
      simp only []
      cases hstr : pyStrE nameV with
      | error e => exact h
      | ok nameS =>
        simp only []
        cases hdump : jsonDumpsCanonE (sanitize_event_data (.dict kvs)) with
        | error e => exact h
        | ok dumpStr =>
          simp only []
          by_cases hskip : (nameS ++ "_" ++ pyHashStr dumpStr) ∈ st.processed ∨
              (¬ monitored.isEmpty ∧ ¬ monitored.any (fun m => valueEqB nameV (Value.str m)))
          · rw [if_pos hskip]
            exact h
          · rw [if_neg hskip]
            cases hval : computeValidation rules nameV (sanitize_event_data (.dict kvs)) with
            | error e => exact h
            | ok pr =>
              obtain ⟨flag, det⟩ := pr
              simp only []
              have hnp : (nameS ++ "_" ++ pyHashStr dumpStr) ∉ st.processed :=
                fun hmem => hskip (Or.inl hmem)
              have hrecid : recordId
                  ⟨nameV, sanitize_event_data (.dict kvs), time, url, flag, det⟩ =
                  nameS ++ "_" ++ pyHashStr dumpStr := by
                simp [recordId, hstr, hdump]
              constructor
              · simp only [List.map_append, List.map_cons, List.map_nil, hrecid]
                rw [List.nodup_append]
                refine ⟨h.1, List.nodup_singleton _, ?_⟩
                intro a ha hb
                simp at hb
                subst hb
                obtain ⟨r, hr, hre⟩ := List.mem_map.mp ha
                exact hnp (hre ▸ h.2 r hr)
              · intro r hr
                rcases List.mem_append.mp hr with hold | hnew
                · exact List.mem_append.mpr (Or.inl (h.2 r hold))
                · simp at hnew
                  subst hnew
                  exact List.mem_append.mpr (Or.inr (by simp [hrecid]))
  | null => exact h
  | bool b => exact h
  | int n => exact h
  | float r => exact h
  | str s => exact h
  | list xs => exact h
  | selenium s => exact h
  | foreign o s => exact h

/-- C3: dedup over one monitoring run.  First conjunct: for every rule map,
track filter and sequence of polling cycles, the records enqueued over the
whole run have pairwise distinct dedup identities (event name plus content
hash of the sanitized payload), so at most one Event Record per identity is
ever enqueued — in particular two cycles observing events with the same name
and equal sanitized content enqueue one record.  Second conjunct: the
concrete two-identical-cycles scenario enqueues exactly one record, claimed
at the first cycle. -/
theorem C3_dedup_enqueues_once :
    (∀ (rules : List (String × List (String × RVal))) (monitored : List String)
       (cycles : List PollCycle),
       ((runMonitor rules monitored cycles).queue.map recordId).Nodup) ∧
    ((runMonitor [] []
        [⟨"u", 1, [.dict [("event", .str "purchase"), ("value", .int 9)]]⟩,
         ⟨"u", 2, [.dict [("event", .str "purchase"), ("value", .int 9)]]⟩]).queue.map
       (fun r => r.timestamp)) = [1] := by
  constructor
  · intro rules monitored cycles
    have hinv : MonInv (runMonitor rules monitored cycles) := by
      apply foldl_inv MonInv (processCycle rules monitored)
      · intro s c hs
        exact foldl_inv MonInv (processEvent rules monitored c.url c.time)
          (fun s' a hs' => processEvent_inv rules monitored c.url c.time s' a hs')
          c.datalayer s hs
      · exact ⟨List.nodup_nil, by intro r hr; cases hr⟩
    exact hinv.1
  · rfl

/-- C4: required-field asymmetry.  The rule with required key !a against the
empty payload yields exactly the one missing-field error; the same rule with
plain key a yields no error.  In general, whenever a rule entry names a
field absent from a dict payload, the check contributes the missing-field
error exactly when the key carries the ! marker and nothing otherwise,
whatever the expected value is. -/
theorem C4_required_field_asymmetry :
    validate_event (.dict []) [("!a", .s "<int>")] =
      .ok (false, ["Missing required field: a"]) ∧
    validate_event (.dict []) [("a", .s "<int>")] = .ok (true, []) ∧
    ∀ (fuel : Nat) (kvs : List (String × Value)) (key : String) (exp : RVal)
      (path : String) (errs : List String),
      (kvs.any (fun kv => kv.1 == pyLstripBang key)) = false →
      checkOne (fuel + 1) (.dict kvs) key exp path errs =
        .ok (if strStartsWithB key "!" then
              errs ++ ["Missing required field: " ++ path ++ pyLstripBang key]
            else errs) := by
  refine ⟨rfl, rfl, ?_⟩
  intro fuel kvs key exp path errs h
  simp only [checkOne, pyContains, h]
  split <;> simp

/-- C4 witness: the general missing-field conjunct applied to the required
key !b with a nonempty payload lacking b. -/
theorem C4_required_field_witness :
    checkOne 1 (.dict [("x", .int 1)]) "!b" (.s "<str>") "p." ["prior"] =
      .ok (if strStartsWithB "!b" "!" then
            ["prior"] ++ ["Missing required field: " ++ "p." ++ pyLstripBang "!b"]
          else ["prior"]) :=
  C4_required_field_asymmetry.2.2 0 [("x", .int 1)] "!b" (.s "<str>") "p." ["prior"]
    (by decide)

/-- C5: array-schema application.  The rule with an items array of one
element schema requiring id, validated against a two-element array whose
second element lacks id, yields exactly one error naming items[1].id; and in
general the element loop checks every element of the array against the
single element schema, with the path extended by key[i] from the enumerated
index. -/
theorem C5_array_schema_elementwise :
    validate_event (.dict [("items", .list [.dict [("id", .int 1)], .dict []])])
        [("items", .arr [.obj [("!id", .s "<int>")]])] =
      .ok (false, ["Missing required field: items[1].id"]) ∧
    ∀ (g : Value → String → List String → Except PyErr (List String))
      (xs : List Value) (base : String) (i : Nat) (errs : List String),
      checkListRuleHO g xs base i errs =
        (List.enumFrom i xs).foldlM
          (fun es p => g p.2 (base ++ "[" ++ toString p.1 ++ "].") es) errs := by
  refine ⟨rfl, ?_⟩
  intro g xs
  induction xs with
  | nil =>
    intro base i errs
    simp only [checkListRuleHO, List.enumFrom_nil, List.foldlM_nil]
    rfl
  | cons x rest ih =>
    intro base i errs
    simp only [checkListRuleHO, List.enumFrom_cons, List.foldlM_cons]
    cases hx : g x (base ++ "[" ++ toString i ++ "].") errs with
    | error e => rfl
    | ok es => exact ih base (i + 1) es

/-- C6: the type-tag checks.  The int check accepts exactly integer values
(booleans, though of integer type, are excluded); the float check accepts
every integer and every float value; the str check accepts exactly strings;
and a failing type-tag check on a present field appends exactly the error
"<path> should be a <type>". -/
theorem C6_type_tag_checks :
    (∀ v : Value, typeCheck "int" v = true ↔ ∃ n, v = .int n) ∧
    (∀ v : Value, ((∃ n, v = .int n) ∨ (∃ r, v = .float r)) → typeCheck "float" v = true) ∧
    (∀ v : Value, typeCheck "str" v = true ↔ ∃ s, v = .str s) ∧
    (∀ (k : String) (v : Value) (t : String), t ∈ typeCheckKeys →
      strStartsWithB k "!" = false → pyLstripBang k = k → typeCheck t v = false →
      validate_event (.dict [(k, v)]) [(k, .s ("<" ++ t ++ ">"))] =
        .ok (false, [k ++ " should be a " ++ t])) := by
  refine ⟨?_, ?_, ?_, ?_⟩
  · intro v
    cases v <;> simp [typeCheck, pyIsinstInt, pyIsinstBool]
  · intro v hv
    rcases hv with ⟨n, rfl⟩ | ⟨r, rfl⟩ <;> rfl
  · intro v
    cases v <;> simp [typeCheck, pyIsinstStr]
  · intro k v t ht hbang hstrip hcheck
    have hm : validatorFuel [(k, RVal.s ("<" ++ t ++ ">"))] = 17 := rfl
    simp only [validate_event, hm]
    fin_cases ht <;>
      simp [checkEntries, checkOne, pyContains, pyIndex, pyDictFind,
        hbang, hstrip, hcheck, allowed_validation_types, pyLowerB, pyStripAngles,
        typeCheckKeys, str_empty_append]

/-- C6 witness: the float conjunct at an integer, and the error-message
conjunct at a string value failing the int check. -/
theorem C6_type_tag_witness :
    typeCheck "float" (.int 7) = true ∧
    validate_event (.dict [("v", .str "9.99")]) [("v", .s "<int>")] =
      .ok (false, ["v should be a int"]) :=
  ⟨C6_type_tag_checks.2.1 (.int 7) (Or.inl ⟨7, rfl⟩),
   C6_type_tag_checks.2.2.2 "v" (.str "9.99") "int" (by decide) (by decide)
     (by decide) (by decide)⟩

/-- C9 counterexample: a leading comma inside an object is NOT tolerated —
it is consumed as a bare-word key, so adding a leading comma to the source
yields a different compiled rule tree (here the two-entry garbage mapping
with keys "," and ":"). -/
theorem C9_leading_comma_changes_tree :
    parse_validation_code_block "\x7b,a:<int>\x7d" =
      .ok [(",", .s "a"), (":", .s "<int>")] ∧
    parse_validation_code_block "\x7ba:<int>\x7d" = .ok [("a", .s "<int>")] ∧
    parse_validation_code_block "\x7b,a:<int>\x7d" ≠
      parse_validation_code_block "\x7ba:<int>\x7d" :=
  ⟨rfl, rfl, fun h =>
    absurd (congrArg (Except.map (List.map Prod.fst)) h) (by decide)⟩

/-- C9 amended: trailing commas are tolerated and the empty object compiles
to the empty rule tree, but leading commas are not (they are parsed as bare
keys or elements, as the counterexample shows).  After at least one entry, a
comma immediately followed by the closing bracket is consumed together with
it and parsing returns exactly as if the comma were absent, for objects and
arrays alike; "\x7b\x7d" compiles to the empty tree; and concretely a
trailing comma in a rule source leaves the compiled tree unchanged. -/
theorem C9_comma_tolerance_amended :
    (∀ (fuel : Nat) (obj : List (String × RVal)) (ts : List String),
      parseObjectLoopP (fuel + 1) false obj ("," :: "\x7d" :: ts) = .ok (obj, ts) ∧
      parseObjectLoopP (fuel + 1) false obj ("\x7d" :: ts) = .ok (obj, ts)) ∧
    (∀ (fuel : Nat) (arr : List RVal) (ts : List String),
      parseArrayLoopP (fuel + 1) false arr ("," :: "]" :: ts) = .ok (arr, ts) ∧
      parseArrayLoopP (fuel + 1) false arr ("]" :: ts) = .ok (arr, ts)) ∧
    parse_validation_code_block "\x7b\x7d" = .ok [] ∧
    parse_validation_code_block "\x7ba:<int>,\x7d" =
      parse_validation_code_block "\x7ba:<int>\x7d" ∧
    parse_validation_code_block "\x7ba:[<int>,<str>,],\x7d" =
      parse_validation_code_block "\x7ba:[<int>,<str>]\x7d" :=
  ⟨fun _ _ _ => ⟨rfl, rfl⟩, fun _ _ _ => ⟨rfl, rfl⟩, rfl, rfl, rfl⟩

end OMDL
